import Mathlib

/-!
Shallow embedding of `src/ooni_connect_bluetooth/webserver.py`.

The module keeps five module-level globals (`ble_client`, `current_data`,
`connected_websockets`, `scanning`, `discovered_devices`); these become the
fields of `ServerState`.  Async BLE and websocket I/O is modelled with
explicit outcome oracles: `sendOk` tells whether `ws.send_json` succeeds for
a given websocket, `teardownOk` whether `stop_notify`/`disconnect` of the old
client succeed, and `AttemptOutcome` which step of the new connection attempt
fails (if any).  The two-stage decoder (`NotifyCharacteristic.decode` then
`PacketNotify.decode`, defined in modules not present in the sources) is a
parameter `decode : List Nat → Except String PacketNotify`; `notify_data`
only observes whether it succeeds or raises `DecodeError`.
-/

/-- Modelled from the spec: `packets.py` is not in the sources; §3 gives
`temperatureUnit` as an enumeration with members Celsius and Fahrenheit. -/
inductive TemperatureUnit where
  | celsius
  | fahrenheit
deriving Repr, DecidableEq

/-- Modelled from the spec: §6 says the unit is serialized as a short unit
token (the web page renders a degree sign followed by this token). -/
def TemperatureUnit.value : TemperatureUnit → String
  | TemperatureUnit.celsius => "C"
  | TemperatureUnit.fahrenheit => "F"

/-- The decoded notification packet (`PacketNotify` in `packets.py`); the
fields are exactly the ones `notify_data` reads off the packet. -/
structure PacketNotify where
  battery : Nat
  ambient_a : Int
  ambient_b : Int
  probe_p1 : Int
  probe_p2 : Int
  probe_p1_connected : Bool
  probe_p2_connected : Bool
  eco_mode : Bool
  temperature_unit : TemperatureUnit
deriving Repr, DecidableEq

/-- The `current_data` dictionary built in `notify_data` (lines 35-45). -/
structure TelemetryData where
  battery : Nat
  ambient_a : Int
  ambient_b : Int
  probe_p1 : Int
  probe_p2 : Int
  probe_p1_connected : Bool
  probe_p2_connected : Bool
  eco_mode : Bool
  temperature_unit : String
deriving Repr, DecidableEq

/-- The dictionary literal of lines 35-45: every field of the packet is
copied, the unit as its `.value` token. -/
def packetToData (p : PacketNotify) : TelemetryData :=
  { battery := p.battery
    ambient_a := p.ambient_a
    ambient_b := p.ambient_b
    probe_p1 := p.probe_p1
    probe_p2 := p.probe_p2
    probe_p1_connected := p.probe_p1_connected
    probe_p2_connected := p.probe_p2_connected
    eco_mode := p.eco_mode
    temperature_unit := p.temperature_unit.value }

/-- A `BleakClient` as `webserver.py` observes it: its target address, the
`is_connected` flag, and whether `start_notify` has succeeded on it. -/
structure BleakClient where
  address : String
  connected : Bool
  subscribed : Bool
deriving Repr, DecidableEq

/-- A scan result entry, the dictionary appended in `detection_callback`
(lines 511-515). -/
structure DiscoveredDevice where
  address : String
  name : String
  rssi : Int
deriving Repr, DecidableEq

/-- The module-level globals of `webserver.py` (lines 18-22).  Websockets are
identified by natural numbers. -/
structure ServerState where
  ble_client : Option BleakClient
  current_data : Option TelemetryData
  connected_websockets : List Nat
  scanning : Bool
  discovered_devices : List DiscoveredDevice
deriving Repr, DecidableEq

/-- The globals at process start (lines 18-22). -/
def initialState : ServerState :=
  { ble_client := none
    current_data := none
    connected_websockets := []
    scanning := false
    discovered_devices := [] }

/-- One lowercase hex digit, as Python's `bytes.hex` produces. -/
def hexDigit (n : Nat) : Char :=
  if n < 10 then Char.ofNat (48 + n) else Char.ofNat (87 + n)

/-- Two lowercase hex digits for one byte. -/
def byteHex (b : Nat) : String :=
  String.mk [hexDigit ((b / 16) % 16), hexDigit (b % 16)]

/-- Python's `bytearray.hex()`: the bytes in order, two hex digits each. -/
def bytesHex (bs : List Nat) : String :=
  String.join (bs.map byteHex)

/-- The message printed by `notify_data` on a decode failure (line 55):
`f"Failed to decode: {data.hex()} with error {exc}"`. -/
def mkDecodeLog (data : List Nat) (e : String) : String :=
  "Failed to decode: " ++ bytesHex data ++ " with error " ++ e

/-- The fan-out loop of `notify_data` (lines 48-52): iterate over a snapshot
copy `connected_websockets[:]`, try to send to each websocket, and on a send
failure remove that websocket from the live registry (the bare `except`
swallows the error).  Returns the final registry and the list of websockets
that received the record, in iteration order. -/
def sendAllAux (sendOk : Nat → Bool) : List Nat → List Nat → List Nat × List Nat
  | [], reg => (reg, [])
  | ws :: rest, reg =>
    if sendOk ws then
      let p := sendAllAux sendOk rest reg
      (p.1, ws :: p.2)
    else
      sendAllAux sendOk rest (reg.erase ws)

/-- What one `notify_data` invocation produces: the new global state, the
per-websocket deliveries made (websocket, record sent), and the log line
printed, if any. -/
structure NotifyResult where
  state : ServerState
  delivered : List (Nat × TelemetryData)
  log : Option String
deriving Repr, DecidableEq

/-- `notify_data` (lines 29-55): decode the raw notification; on success
overwrite `current_data` with the fully built dictionary and send it to every
websocket in a snapshot of the registry, pruning the ones whose send fails;
on `DecodeError` leave all state untouched and print the payload hex. -/
def notify_data (decode : List Nat → Except String PacketNotify)
    (sendOk : Nat → Bool) (st : ServerState) (data : List Nat) : NotifyResult :=
  match decode data with
  | Except.ok packet =>
    let d := packetToData packet
    let p := sendAllAux sendOk st.connected_websockets st.connected_websockets
    { state := { st with current_data := some d, connected_websockets := p.1 }
      delivered := p.2.map (fun w => (w, d))
      log := none }
  | Except.error e =>
    { state := st, delivered := [], log := some (mkDecodeLog data e) }

/-- The attach half of `websocket_endpoint` (lines 543-548): accept, append
the websocket to the registry, then—if `current_data` is set (it is `None`
until the first successful decode, afterwards always a fully populated
dictionary, hence truthy)—send it to the new websocket.  Returns the new
state and the records delivered to the new websocket during attachment. -/
def websocket_attach (st : ServerState) (ws : Nat) : ServerState × List TelemetryData :=
  let st2 := { st with connected_websockets := st.connected_websockets ++ [ws] }
  match st.current_data with
  | some d => (st2, [d])
  | none => (st2, [])

/-- How a websocket session's keep-alive loop ended (lines 554-560): a clean
`WebSocketDisconnect`, or any other exception. -/
inductive SessionEnd where
  | disconnected
  | otherError (msg : String)
deriving Repr, DecidableEq

/-- The exception handlers of `websocket_endpoint` (lines 554-560): both the
`WebSocketDisconnect` branch and the generic `Exception` branch remove the
websocket from the registry, guarded by a membership check. -/
def websocket_session_end (st : ServerState) (ws : Nat) (e : SessionEnd) : ServerState :=
  match e with
  | SessionEnd.disconnected =>
    if ws ∈ st.connected_websockets then
      { st with connected_websockets := st.connected_websockets.erase ws }
    else st
  | SessionEnd.otherError _ =>
    if ws ∈ st.connected_websockets then
      { st with connected_websockets := st.connected_websockets.erase ws }
    else st

/-- Observable BLE actions performed by `connect_ble`, in program order.  The
`ok` flag on `stopNotify`, `connectCall` and `startNotify` records whether the
awaited call succeeded or raised. -/
inductive BleEvent where
  | stopNotify (address : String) (ok : Bool)
  | disconnect (address : String)
  | newClient (address : String)
  | connectCall (address : String) (ok : Bool)
  | startNotify (address : String) (ok : Bool)
deriving Repr, DecidableEq

/-- The device address an event acts on. -/
def BleEvent.addr : BleEvent → String
  | BleEvent.stopNotify a _ => a
  | BleEvent.disconnect a => a
  | BleEvent.newClient a => a
  | BleEvent.connectCall a _ => a
  | BleEvent.startNotify a _ => a

/-- Which awaited step of the new-connection attempt of `connect_ble`
(lines 68-70) fails, if any: `timeout` means `client.connect()` raises
(timeout or device unreachable), `subscribeFail` means `connect()` succeeded
but `start_notify` raises, `success` means both succeed. -/
inductive AttemptOutcome where
  | timeout
  | subscribeFail
  | success
deriving Repr, DecidableEq

/-- Lines 68-72 of `connect_ble`: `ble_client = BleakClient(address,
timeout=20)` (the global is overwritten before any await), then
`await ble_client.connect()`, then `await ble_client.start_notify(...)`.
Returns the new state, the Python-level result (`True` or the propagated
exception's message), and the event trace. -/
def connectAttempt (outcome : AttemptOutcome) (st : ServerState)
    (address : String) : ServerState × Except String Bool × List BleEvent :=
  match outcome with
  | AttemptOutcome.timeout =>
    ({ st with ble_client := some { address := address, connected := false, subscribed := false } },
     Except.error ("failed to connect"),
     [BleEvent.newClient address, BleEvent.connectCall address false])
  | AttemptOutcome.subscribeFail =>
    ({ st with ble_client := some { address := address, connected := true, subscribed := false } },
     Except.error ("subscription rejected"),
     [BleEvent.newClient address, BleEvent.connectCall address true,
      BleEvent.startNotify address false])
  | AttemptOutcome.success =>
    ({ st with ble_client := some { address := address, connected := true, subscribed := true } },
     Except.ok true,
     [BleEvent.newClient address, BleEvent.connectCall address true,
      BleEvent.startNotify address true])

/-- `connect_ble` (lines 58-72): if a client exists and `is_connected`, run
`stop_notify` then `disconnect` on it — with no surrounding try/except, so if
teardown raises the exception propagates and nothing further runs (modelled
as teardown failing at its first awaited call) — then run the new attempt.
If no connected client exists, run the new attempt directly. -/
def connect_ble (teardownOk : Bool) (outcome : AttemptOutcome)
    (st : ServerState) (address : String) :
    ServerState × Except String Bool × List BleEvent :=
  match st.ble_client with
  | some c =>
    if c.connected then
      if teardownOk then
        let r := connectAttempt outcome st address
        (r.1, r.2.1,
         BleEvent.stopNotify c.address true :: BleEvent.disconnect c.address :: r.2.2)
      else
        (st, Except.error ("teardown failed"), [BleEvent.stopNotify c.address false])
    else
      connectAttempt outcome st address
  | none => connectAttempt outcome st address

/-- The JSON body returned by the `/connect` endpoint (lines 530-537). -/
structure ConnectResult where
  success : Bool
  address : Option String
  error : Option String
deriving Repr, DecidableEq

/-- `connect_endpoint` (lines 530-537): call `connect_ble`; any exception is
caught and reported as `{"success": False, "error": str(e)}`, success as
`{"success": True, "address": address}`. -/
def connect_endpoint (teardownOk : Bool) (outcome : AttemptOutcome)
    (st : ServerState) (address : String) :
    ServerState × ConnectResult × List BleEvent :=
  let r := connect_ble teardownOk outcome st address
  match r.2.1 with
  | Except.ok _ =>
    (r.1, { success := true, address := some address, error := none }, r.2.2)
  | Except.error e =>
    (r.1, { success := false, address := none, error := some e }, r.2.2)

/-- Live notification subscriptions on the BLE side after one event: a
successful `stop_notify` removes the address, a successful `start_notify`
adds it; everything else leaves the set unchanged. -/
def applyEvent (subs : List String) : BleEvent → List String
  | BleEvent.stopNotify a ok => if ok then subs.erase a else subs
  | BleEvent.startNotify a ok => if ok then a :: subs else subs
  | _ => subs

/-- All intermediate subscription sets while a trace of events runs,
including the initial and final ones. -/
def replayStates (subs : List String) : List BleEvent → List (List String)
  | [] => [subs]
  | e :: es => subs :: replayStates (applyEvent subs e) es

/-- One advertisement as `detection_callback` sees it: the `BLEDevice`'s
address and name (empty string models a `None` name, which is falsy in
Python) and the `AdvertisementData`'s rssi. -/
structure Advertisement where
  address : String
  name : String
  rssi : Int
deriving Repr, DecidableEq

/-- `detection_callback` (lines 508-515): accept the advertisement only if
its address was not seen before and its name is exactly `"Ooni_DT_Hub"`; then
record the address as seen and append the device dictionary
(`device.name or "Unknown"` substitutes for a falsy name). -/
def detection_callback (found : List String) (devices : List DiscoveredDevice)
    (adv : Advertisement) : List String × List DiscoveredDevice :=
  if adv.address ∉ found ∧ adv.name = "Ooni_DT_Hub" then
    (adv.address :: found,
     devices ++ [{ address := adv.address
                   name := if adv.name = "" then "Unknown" else adv.name
                   rssi := adv.rssi }])
  else (found, devices)

/-- Running `detection_callback` over a stream of advertisements, threading
the `found_addresses` set and the `discovered_devices` list. -/
def scanRun (found : List String) (devices : List DiscoveredDevice) :
    List Advertisement → List DiscoveredDevice
  | [] => devices
  | adv :: rest =>
    let p := detection_callback found devices adv
    scanRun p.1 p.2 rest

/-- An advertisement together with the time (seconds after `scanner.start()`)
at which the wireless stack delivers it. -/
structure TimedAdv where
  time : Nat
  adv : Advertisement
deriving Repr, DecidableEq

/-- The scan window hard-coded at line 520: `await asyncio.sleep(5)`. -/
def SCAN_SECONDS : Nat := 5

/-- The JSON body returned by the `/scan` endpoint. -/
structure ScanResult where
  success : Bool
  devices : List DiscoveredDevice
  error : Option String
deriving Repr, DecidableEq

/-- `scan_devices` (lines 496-527): refuse if a scan is running; otherwise
reset `discovered_devices`, run the scanner for the fixed 5-second window
(the advertisements delivered before the window closes are exactly those
with `time < SCAN_SECONDS`), clear the busy flag and return the accumulated
list.  `scanOk = false` models the scanner raising at `scanner.start()`,
before any advertisement is delivered: the except branch clears the busy
flag and reports the error. -/
def scan_devices (scanOk : Bool) (st : ServerState) (advs : List TimedAdv) :
    ServerState × ScanResult :=
  if st.scanning then
    (st, { success := false, devices := [], error := some ("Scan already in progress") })
  else if scanOk then
    let window := (advs.filter (fun t => decide (t.time < SCAN_SECONDS))).map (fun t => t.adv)
    let devs := scanRun [] [] window
    ({ st with scanning := false, discovered_devices := devs },
     { success := true, devices := devs, error := none })
  else
    ({ st with scanning := false, discovered_devices := [] },
     { success := false, devices := [], error := some ("scan failed") })

/-- The device dictionary `detection_callback` appends for an accepted
advertisement. -/
def toDev (v : Advertisement) : DiscoveredDevice :=
  { address := v.address
    name := if v.name = "" then "Unknown" else v.name
    rssi := v.rssi }

/-- The name filter of `detection_callback`. -/
def isHub (v : Advertisement) : Bool := v.name == "Ooni_DT_Hub"

/-- First-seen deduplication by address, as §4.3 of the specification words
it: keep an advertisement only if its address has not been kept (or
pre-seeded in `seen`) before. -/
def dedupFrom (seen : List String) : List Advertisement → List Advertisement
  | [] => []
  | v :: rest =>
    if v.address ∈ seen then dedupFrom seen rest
    else v :: dedupFrom (v.address :: seen) rest

/-- The scan contract exactly as the specification words it (§4.3 and §6
`RequestScan(duration)`): a requested duration `d` bounds the discovery
window, and the result is the name-filtered, first-seen-deduplicated list of
advertisements delivered within that window, in discovery order. -/
def scanSpecWindow (d : Nat) (advs : List TimedAdv) : List DiscoveredDevice :=
  (dedupFrom []
    (((advs.filter (fun t => decide (t.time < d))).map (fun t => t.adv)).filter isHub)).map toDev

/-- A concrete decoded packet, used to instantiate theorems. -/
def samplePacket : PacketNotify :=
  { battery := 100
    ambient_a := 20
    ambient_b := 21
    probe_p1 := 22
    probe_p2 := 0
    probe_p1_connected := true
    probe_p2_connected := false
    eco_mode := false
    temperature_unit := TemperatureUnit.fahrenheit }

/-- A concrete stand-in for the two-stage decoder: the empty payload is
malformed, any other payload decodes with its first byte as the battery. -/
def sampleDecode : List Nat → Except String PacketNotify
  | [] => Except.error ("too short")
  | b :: _ => Except.ok { samplePacket with battery := b }

theorem sendAllAux_snd (sendOk : Nat → Bool) (snap reg : List Nat) :
    (sendAllAux sendOk snap reg).2 = snap.filter sendOk := by
  induction snap generalizing reg with
  | nil => simp [sendAllAux]
  | cons a rest ih =>
    by_cases h : sendOk a
    · simp [sendAllAux, h, List.filter_cons, ih]
    · simp [sendAllAux, h, List.filter_cons, ih]

theorem sendAllAux_fst (sendOk : Nat → Bool) (snap reg : List Nat) :
    (sendAllAux sendOk snap reg).1 =
      snap.foldl (fun r w => if sendOk w then r else r.erase w) reg := by
  induction snap generalizing reg with
  | nil => simp [sendAllAux]
  | cons a rest ih =>
    by_cases h : sendOk a <;> simp [sendAllAux, h, ih]

theorem foldl_prune_id (sendOk : Nat → Bool) (l reg : List Nat)
    (h : ∀ x ∈ l, sendOk x = true) :
    l.foldl (fun r w => if sendOk w then r else r.erase w) reg = reg := by
  induction l generalizing reg with
  | nil => rfl
  | cons a rest ih =>
    have ha := h a (List.mem_cons_self a rest)
    simp only [List.foldl_cons, ha, if_true]
    exact ih reg fun x hx => h x (List.mem_cons_of_mem a hx)

theorem foldl_prune_single (sendOk : Nat → Bool) (w : Nat)
    (hs : ∀ x, sendOk x = true ↔ x ≠ w) :
    ∀ (l : List Nat), l.Nodup → w ∈ l → ∀ (reg : List Nat),
      l.foldl (fun r x => if sendOk x then r else r.erase x) reg = reg.erase w := by
  intro l
  induction l with
  | nil => intro _ hw; simp at hw
  | cons a rest ih =>
    intro hnd hw reg
    by_cases ha : a = w
    · subst ha
      have hsa : sendOk a = false := by
        have := hs a
        simp at this
        exact this
      have hna : a ∉ rest := (List.nodup_cons.mp hnd).1
      simp only [List.foldl_cons, hsa, if_false, Bool.false_eq_true]
      exact foldl_prune_id sendOk rest (reg.erase a)
        fun x hx => (hs x).mpr fun hxw => hna (hxw ▸ hx)
    · have hsa : sendOk a = true := (hs a).mpr ha
      have hw2 : w ∈ rest := by
        rcases List.mem_cons.mp hw with h | h
        · exact absurd h.symm ha
        · exact h
      simp only [List.foldl_cons, hsa, if_true]
      exact ih (List.nodup_cons.mp hnd).2 hw2 reg

theorem nodup_not_mem_erase (a : Nat) (l : List Nat) (h : l.Nodup) :
    a ∉ l.erase a := by
  induction l with
  | nil => simp
  | cons b tl ih =>
    by_cases hba : b = a
    · subst hba
      rw [List.erase_cons_head]
      exact (List.nodup_cons.mp h).1
    · rw [List.erase_cons_tail (by simp [hba])]
      intro hmem
      rcases List.mem_cons.mp hmem with hc | hc
      · exact hba hc.symm
      · exact ih (List.nodup_cons.mp h).2 hc

theorem notify_data_ok (decode : List Nat → Except String PacketNotify)
    (sendOk : Nat → Bool) (st : ServerState) (data : List Nat) (p : PacketNotify)
    (hp : decode data = Except.ok p) :
    notify_data decode sendOk st data =
      { state := { st with
          current_data := some (packetToData p)
          connected_websockets :=
            st.connected_websockets.foldl
              (fun r w => if sendOk w then r else r.erase w)
              st.connected_websockets }
        delivered := (st.connected_websockets.filter sendOk).map
          (fun w => (w, packetToData p))
        log := none } := by
  simp [notify_data, hp, sendAllAux_fst, sendAllAux_snd]

theorem notify_data_err (decode : List Nat → Except String PacketNotify)
    (sendOk : Nat → Bool) (st : ServerState) (data : List Nat) (e : String)
    (he : decode data = Except.error e) :
    notify_data decode sendOk st data =
      { state := st, delivered := [], log := some (mkDecodeLog data e) } := by
  simp [notify_data, he]

/-- C3: a broadcast to N registered subscribers in which delivery to one
subscriber fails removes exactly that subscriber from the registry, every
other subscriber still receives the record, and the failed subscriber
receives nothing (the send error is swallowed, never surfaced to the
notification callback's caller). -/
theorem C3_broadcast_prunes_failed (decode : List Nat → Except String PacketNotify)
    (sendOk : Nat → Bool) (st : ServerState) (data : List Nat) (p : PacketNotify)
    (w : Nat) (hp : decode data = Except.ok p)
    (hnd : st.connected_websockets.Nodup)
    (hw : w ∈ st.connected_websockets)
    (hfail : ∀ x, sendOk x = true ↔ x ≠ w) :
    (notify_data decode sendOk st data).state.connected_websockets =
      st.connected_websockets.erase w ∧
    (∀ x ∈ st.connected_websockets, x ≠ w →
      (x, packetToData p) ∈ (notify_data decode sendOk st data).delivered) ∧
    (w, packetToData p) ∉ (notify_data decode sendOk st data).delivered := by
  have hd := notify_data_ok decode sendOk st data p hp
  refine ⟨?_, ?_, ?_⟩
  · rw [hd]
    exact foldl_prune_single sendOk w hfail st.connected_websockets hnd hw
      st.connected_websockets
  · intro x hx hxw
    rw [hd]
    exact List.mem_map.mpr ⟨x, List.mem_filter.mpr ⟨hx, (hfail x).mpr hxw⟩, rfl⟩
  · rw [hd]
    intro hmem
    rcases List.mem_map.mp hmem with ⟨y, hy, hye⟩
    have hyw : y = w := congrArg Prod.fst hye
    subst hyw
    have : sendOk y = true := (List.mem_filter.mp hy).2
    exact (hfail y).mp this rfl

/-- Witness for C3 at a concrete input: registry [1, 2, 3], subscriber 2's
channel fails: 2 is pruned and 1 still receives the record. -/
theorem C3_witness :
    (notify_data sampleDecode (fun x => x != 2)
        { initialState with connected_websockets := [1, 2, 3] } [7]).state.connected_websockets
      = [1, 3] ∧
    (1, packetToData { samplePacket with battery := 7 }) ∈
      (notify_data sampleDecode (fun x => x != 2)
        { initialState with connected_websockets := [1, 2, 3] } [7]).delivered := by
  have h := C3_broadcast_prunes_failed sampleDecode (fun x => x != 2)
      { initialState with connected_websockets := [1, 2, 3] } [7]
      { samplePacket with battery := 7 } 2 rfl (by decide) (by decide)
      (by intro x; simp)
  exact ⟨by rw [h.1]; decide, h.2.1 1 (by decide) (by decide)⟩

/-- C4: a subscriber attaching after at least one successful broadcast
immediately receives the cached last-known record upon attachment, is
registered afterwards (so any subsequent live broadcast reaches it only after
that replay), and a subscriber attaching when no record has ever been decoded
receives nothing on attachment. -/
theorem C4_attach_replays_cache (decode : List Nat → Except String PacketNotify)
    (sendOk sendOk2 : Nat → Bool) (st : ServerState) (data data2 : List Nat)
    (p p2 : PacketNotify) (w : Nat)
    (hp : decode data = Except.ok p) (hw2 : sendOk2 w = true) :
    (websocket_attach (notify_data decode sendOk st data).state w).2 =
      [packetToData p] ∧
    w ∈ (websocket_attach (notify_data decode sendOk st data).state w).1.connected_websockets ∧
    (decode data2 = Except.ok p2 →
      (w, packetToData p2) ∈
        (notify_data decode sendOk2
          (websocket_attach (notify_data decode sendOk st data).state w).1
          data2).delivered) ∧
    (∀ s : ServerState, s.current_data = none → (websocket_attach s w).2 = []) := by
  have hd := notify_data_ok decode sendOk st data p hp
  have hcur : (notify_data decode sendOk st data).state.current_data =
      some (packetToData p) := by rw [hd]
  refine ⟨?_, ?_, ?_, ?_⟩
  · simp [websocket_attach, hcur]
  · simp [websocket_attach, hcur]
  · intro h2
    have hd2 := notify_data_ok decode sendOk2
      (websocket_attach (notify_data decode sendOk st data).state w).1 data2 p2 h2
    rw [hd2]
    refine List.mem_map.mpr ⟨w, List.mem_filter.mpr ⟨?_, hw2⟩, rfl⟩
    simp [websocket_attach, hcur]
  · intro s hs
    simp [websocket_attach, hs]

/-- Witness for C4 at a concrete input: after a broadcast of the record
decoded from payload [9], a fresh subscriber 5 receives exactly that record
when it attaches. -/
theorem C4_witness :
    (websocket_attach (notify_data sampleDecode (fun _ => true) initialState [9]).state
        5).2 = [packetToData { samplePacket with battery := 9 }] := by
  exact (C4_attach_replays_cache sampleDecode (fun _ => true) (fun _ => true)
      initialState [9] [9] { samplePacket with battery := 9 }
      { samplePacket with battery := 9 } 5 rfl rfl).1

/-- C5: a notification whose decode fails with DecodeError leaves the whole
server state untouched, delivers nothing, logs the failure with the raw
payload hex-encoded, and makes every subsequent notification behave exactly
as if the failure had never happened. -/
theorem C5_decode_failure_absorbed (decode : List Nat → Except String PacketNotify)
    (sendOk : Nat → Bool) (st : ServerState) (data : List Nat) (e : String)
    (he : decode data = Except.error e) :
    notify_data decode sendOk st data =
      { state := st, delivered := [], log := some (mkDecodeLog data e) } ∧
    mkDecodeLog data e = "Failed to decode: " ++ bytesHex data ++ " with error " ++ e ∧
    (∀ data2, notify_data decode sendOk (notify_data decode sendOk st data).state data2 =
        notify_data decode sendOk st data2) := by
  have h1 := notify_data_err decode sendOk st data e he
  refine ⟨h1, rfl, ?_⟩
  intro data2
  rw [h1]

/-- Witness for C5 at a concrete input: the empty payload fails to decode and
is absorbed without touching the state. -/
theorem C5_witness :
    notify_data sampleDecode (fun _ => true) initialState [] =
      { state := initialState, delivered := [],
        log := some (mkDecodeLog [] ("too short")) } := by
  exact (C5_decode_failure_absorbed sampleDecode (fun _ => true) initialState []
      ("too short") rfl).1

/-- C6: the cached record (`current_data`) is left unchanged by a failed
decode, and a successful decode fully replaces it—every field of the new
record is the corresponding field of the decoded packet—before any subscriber
delivery; every record delivered in that invocation is exactly the new cached
record, never a partial one. -/
theorem C6_cache_atomicity (decode : List Nat → Except String PacketNotify)
    (sendOk : Nat → Bool) (st : ServerState) (data : List Nat) :
    (∀ e, decode data = Except.error e →
      (notify_data decode sendOk st data).state.current_data = st.current_data) ∧
    (∀ p, decode data = Except.ok p →
      (notify_data decode sendOk st data).state.current_data = some (packetToData p) ∧
      (packetToData p).battery = p.battery ∧
      (packetToData p).ambient_a = p.ambient_a ∧
      (packetToData p).ambient_b = p.ambient_b ∧
      (packetToData p).probe_p1 = p.probe_p1 ∧
      (packetToData p).probe_p2 = p.probe_p2 ∧
      (packetToData p).probe_p1_connected = p.probe_p1_connected ∧
      (packetToData p).probe_p2_connected = p.probe_p2_connected ∧
      (packetToData p).eco_mode = p.eco_mode ∧
      (packetToData p).temperature_unit = p.temperature_unit.value ∧
      ∀ pr ∈ (notify_data decode sendOk st data).delivered,
        pr.2 = packetToData p) := by
  constructor
  · intro e he
    rw [notify_data_err decode sendOk st data e he]
  · intro p hp
    have hd := notify_data_ok decode sendOk st data p hp
    refine ⟨by rw [hd], rfl, rfl, rfl, rfl, rfl, rfl, rfl, rfl, rfl, ?_⟩
    intro pr hpr
    rw [hd] at hpr
    rcases List.mem_map.mp hpr with ⟨y, _, hye⟩
    rw [← hye]

/-- Witness for C6 at a concrete input: decoding payload [7] replaces the
cache with the record built from the decoded packet. -/
theorem C6_witness :
    (notify_data sampleDecode (fun _ => true) initialState [7]).state.current_data =
      some (packetToData { samplePacket with battery := 7 }) := by
  exact ((C6_cache_atomicity sampleDecode (fun _ => true) initialState [7]).2
      { samplePacket with battery := 7 } rfl).1

/-- C10: whenever a websocket session ends—clean disconnect or any other
error—the websocket is removed from the registry before the handler returns;
the removal is guarded by a membership check, so a websocket already pruned
during a broadcast leaves the state untouched instead of raising. -/
theorem C10_session_end_removal (st : ServerState) (ws : Nat) (e : SessionEnd) :
    (websocket_session_end st ws e).connected_websockets =
      st.connected_websockets.erase ws ∧
    (ws ∉ st.connected_websockets → websocket_session_end st ws e = st) ∧
    (st.connected_websockets.Nodup →
      ws ∉ (websocket_session_end st ws e).connected_websockets) := by
  have hreg : (websocket_session_end st ws e).connected_websockets =
      st.connected_websockets.erase ws := by
    cases e with
    | disconnected =>
      by_cases h : ws ∈ st.connected_websockets
      · simp only [websocket_session_end, if_pos h]
      · simp only [websocket_session_end, if_neg h]
        exact (List.erase_of_not_mem h).symm
    | otherError m =>
      by_cases h : ws ∈ st.connected_websockets
      · simp only [websocket_session_end, if_pos h]
      · simp only [websocket_session_end, if_neg h]
        exact (List.erase_of_not_mem h).symm
  refine ⟨hreg, ?_, ?_⟩
  · intro h
    cases e <;> simp only [websocket_session_end, if_neg h]
  · intro hnd
    rw [hreg]
    exact nodup_not_mem_erase ws st.connected_websockets hnd

/-- Witness for C10 at a concrete input: websocket 4 disconnecting is removed
from the registry [4, 8]. -/
theorem C10_witness :
    4 ∉ (websocket_session_end { initialState with connected_websockets := [4, 8] } 4
        SessionEnd.disconnected).connected_websockets := by
  exact (C10_session_end_removal { initialState with connected_websockets := [4, 8] } 4
      SessionEnd.disconnected).2.2 (by decide)

/-- A state with a live, subscribed connection to address "AA", used to
instantiate the connect theorems. -/
def liveState : ServerState :=
  { initialState with
      ble_client := some { address := "AA", connected := true, subscribed := true } }

/-- Counterexample to C1 as stated: starting Idle (`ble_client = None`), a
connect to "AA:BB" whose `connect()` call times out does report failure to
the caller—but the Connection Manager still holds the client object
constructed for the attempted address, so a partial link object is retained,
contradicting "no client object for the attempted address remains held". -/
theorem C1_counterexample :
    (connect_endpoint true AttemptOutcome.timeout initialState ("AA:BB")).2.1.success
      = false ∧
    (connect_endpoint true AttemptOutcome.timeout initialState ("AA:BB")).1.ble_client =
      some { address := "AA:BB", connected := false, subscribed := false } := by
  exact ⟨rfl, rfl⟩

/-- C1 (amended): every connect call whose new-connection attempt runs and
fails—the attempt runs from Idle, over a stale disconnected client, and
after a successful teardown of a live link; only a live link whose teardown
raises aborts before the attempt—reports the failure to the caller as
`success = False` with an error string, but the Connection Manager retains
the freshly constructed client object for the attempted address in
`ble_client`: unconnected after a connect timeout, and still connected
without a subscription after a rejected subscription. -/
theorem C1_amended_failed_connect (tOk : Bool) (st : ServerState) (address : String)
    (h : ∀ c, st.ble_client = some c → c.connected = true → tOk = true) :
    ((connect_endpoint tOk AttemptOutcome.timeout st address).2.1.success = false ∧
     (connect_endpoint tOk AttemptOutcome.timeout st address).2.1.error ≠ none ∧
     (connect_endpoint tOk AttemptOutcome.timeout st address).1.ble_client =
       some { address := address, connected := false, subscribed := false }) ∧
    ((connect_endpoint tOk AttemptOutcome.subscribeFail st address).2.1.success = false ∧
     (connect_endpoint tOk AttemptOutcome.subscribeFail st address).2.1.error ≠ none ∧
     (connect_endpoint tOk AttemptOutcome.subscribeFail st address).1.ble_client =
       some { address := address, connected := true, subscribed := false }) := by
  rcases hbc : st.ble_client with _ | c
  · refine ⟨⟨?_, ?_, ?_⟩, ⟨?_, ?_, ?_⟩⟩ <;>
      simp [connect_endpoint, connect_ble, connectAttempt, hbc]
  · cases hcc : c.connected with
    | false =>
      refine ⟨⟨?_, ?_, ?_⟩, ⟨?_, ?_, ?_⟩⟩ <;>
        simp [connect_endpoint, connect_ble, connectAttempt, hbc, hcc]
    | true =>
      have ht : tOk = true := h c hbc hcc
      subst ht
      refine ⟨⟨?_, ?_, ?_⟩, ⟨?_, ?_, ?_⟩⟩ <;>
        simp [connect_endpoint, connect_ble, connectAttempt, hbc, hcc]

/-- Witness for C1 (amended) at a concrete input: a rejected subscription on
"11:22", attempted while live on "AA" with the teardown succeeding, leaves a
connected, unsubscribed client for "11:22" held. -/
theorem C1_amended_witness :
    (connect_endpoint true AttemptOutcome.subscribeFail liveState ("11:22")).1.ble_client
      = some { address := "11:22", connected := true, subscribed := false } := by
  exact (C1_amended_failed_connect true liveState ("11:22")
      (fun _ _ _ => rfl)).2.2.2

/-- C2: a connect issued while a connection is live first performs the full
teardown of the existing link—`stop_notify` then `disconnect` on the old
address precede every action on the new address—and if the teardown raises,
nothing is ever done on the new address; replaying the event trace from the
single live subscription shows at most one live notification subscription at
every instant. -/
theorem C2_teardown_before_new (tOk : Bool) (oc : AttemptOutcome)
    (st : ServerState) (c : BleakClient) (b : String)
    (hc : st.ble_client = some c) (hlive : c.connected = true) :
    (∀ s ∈ replayStates [c.address] (connect_ble tOk oc st b).2.2, s.length ≤ 1) ∧
    (tOk = true →
      (connect_ble tOk oc st b).2.2 =
        BleEvent.stopNotify c.address true :: BleEvent.disconnect c.address ::
          (connectAttempt oc st b).2.2 ∧
      ∀ e ∈ (connectAttempt oc st b).2.2, e.addr = b) ∧
    (tOk = false →
      (connect_ble tOk oc st b).2.2 = [BleEvent.stopNotify c.address false]) := by
  refine ⟨?_, ?_, ?_⟩
  · cases tOk with
    | false =>
      simp [connect_ble, hc, hlive, replayStates, applyEvent]
    | true =>
      cases oc <;>
        simp [connect_ble, hc, hlive, connectAttempt, replayStates, applyEvent]
  · intro ht
    subst ht
    constructor
    · simp [connect_ble, hc, hlive]
    · cases oc <;> simp [connectAttempt, BleEvent.addr]
  · intro ht
    subst ht
    simp [connect_ble, hc, hlive]

/-- Witness for C2 at a concrete input: connecting to "BB" while live on "AA"
emits stop_notify and disconnect on "AA" before the attempt on "BB". -/
theorem C2_witness :
    (connect_ble true AttemptOutcome.success liveState ("BB")).2.2 =
      BleEvent.stopNotify ("AA") true :: BleEvent.disconnect ("AA") ::
        (connectAttempt AttemptOutcome.success liveState ("BB")).2.2 := by
  exact ((C2_teardown_before_new true AttemptOutcome.success liveState
      { address := "AA", connected := true, subscribed := true } ("BB") rfl rfl).2.1
      rfl).1

/-- Counterexample to C7 as stated: while live on "AA", a connect to "BB"
whose teardown fails returns the teardown error even though the new attempt
would have succeeded — the teardown error is not logged-and-ignored, it
blocks the new connection entirely: no new link is opened or subscribed. -/
theorem C7_counterexample :
    (connect_ble false AttemptOutcome.success liveState ("BB")).2.1 =
      Except.error ("teardown failed") ∧
    (connect_ble false AttemptOutcome.success liveState ("BB")).1 = liveState ∧
    (connect_ble false AttemptOutcome.success liveState ("BB")).2.2 =
      [BleEvent.stopNotify ("AA") false] := by
  exact ⟨rfl, rfl, rfl⟩

/-- C7 (amended): a teardown failure during connect is not caught: the
exception propagates as the connect call's own failure, the new connection is
never attempted (no new client object, no connect call, no subscribe call),
and `ble_client` still holds the prior client. -/
theorem C7_amended_teardown_blocks (oc : AttemptOutcome) (st : ServerState)
    (c : BleakClient) (address : String)
    (hc : st.ble_client = some c) (hlive : c.connected = true) :
    connect_ble false oc st address =
      (st, Except.error ("teardown failed"), [BleEvent.stopNotify c.address false]) := by
  simp [connect_ble, hc, hlive]

/-- Witness for C7 (amended) at a concrete input: teardown failure on "AA"
aborts the connect to "BB" with the prior client untouched. -/
theorem C7_amended_witness :
    connect_ble false AttemptOutcome.timeout liveState ("BB") =
      (liveState, Except.error ("teardown failed"),
        [BleEvent.stopNotify ("AA") false]) := by
  exact C7_amended_teardown_blocks AttemptOutcome.timeout liveState
    { address := "AA", connected := true, subscribed := true } ("BB") rfl rfl

theorem map_toDev_filter_addr (a : String) (l : List Advertisement) :
    (l.map toDev).filter (fun d => d.address == a) =
      (l.filter (fun v => v.address == a)).map toDev := by
  induction l with
  | nil => rfl
  | cons v rest ih =>
    by_cases h : v.address == a
    · simp only [List.map_cons, List.filter_cons]
      have hd : ((toDev v).address == a) = true := h
      rw [hd, h]
      simp [ih]
    · simp only [List.map_cons, List.filter_cons]
      have hd : ((toDev v).address == a) = false := by
        simpa using h
      have hv : (v.address == a) = false := by simpa using h
      rw [hd, hv]
      simp [ih]

theorem scanRun_eq (advs : List Advertisement) :
    ∀ (found : List String) (devices : List DiscoveredDevice),
      scanRun found devices advs =
        devices ++ (dedupFrom found (advs.filter isHub)).map toDev := by
  induction advs with
  | nil => intro found devices; simp [scanRun, dedupFrom]
  | cons v rest ih =>
    intro found devices
    by_cases hname : v.name = "Ooni_DT_Hub"
    · by_cases haddr : v.address ∈ found
      · have hno : ¬(v.address ∉ found ∧ v.name = "Ooni_DT_Hub") :=
          fun hcontra => hcontra.1 haddr
        simp [scanRun, detection_callback, hno, List.filter_cons, isHub, hname,
          dedupFrom, haddr, ih]
      · have hyes : v.address ∉ found ∧ v.name = "Ooni_DT_Hub" := ⟨haddr, hname⟩
        simp [scanRun, detection_callback, hyes, List.filter_cons, isHub, hname,
          dedupFrom, haddr, ih, toDev]
    · have hno : ¬(v.address ∉ found ∧ v.name = "Ooni_DT_Hub") :=
        fun hcontra => hname hcontra.2
      have hhub : isHub v = false := by simp [isHub, hname]
      simp [scanRun, detection_callback, hno, List.filter_cons, hhub, ih]

theorem dedup_filter_none (a : String) :
    ∀ (l : List Advertisement) (seen : List String), a ∈ seen →
      (dedupFrom seen l).filter (fun v => v.address == a) = [] := by
  intro l
  induction l with
  | nil => intro seen _; rfl
  | cons v rest ih =>
    intro seen ha
    by_cases hm : v.address ∈ seen
    · simp only [dedupFrom, if_pos hm]
      exact ih seen ha
    · have hva : (v.address == a) = false := by
        simp only [beq_eq_false_iff_ne, ne_eq]
        intro he
        exact hm (he ▸ ha)
      simp only [dedupFrom, if_neg hm, List.filter_cons, hva]
      exact ih (v.address :: seen) (List.mem_cons_of_mem _ ha)

theorem dedup_filter_first (a : String) :
    ∀ (l : List Advertisement) (seen : List String), a ∉ seen →
      (dedupFrom seen l).filter (fun v => v.address == a) =
        (l.find? (fun v => v.address == a)).toList := by
  intro l
  induction l with
  | nil => intro seen _; rfl
  | cons v rest ih =>
    intro seen ha
    by_cases hm : v.address ∈ seen
    · have hva : (v.address == a) = false := by
        simp only [beq_eq_false_iff_ne, ne_eq]
        intro he
        exact ha (he ▸ hm)
      simp [dedupFrom, hm, hva, ih seen ha]
    · by_cases hva : v.address = a
      · have hvab : (v.address == a) = true := by simpa using hva
        simp [dedupFrom, hm, hvab,
          dedup_filter_none a rest (v.address :: seen)
            (by rw [hva]; exact List.mem_cons_self a seen)]
      · have hvab : (v.address == a) = false := by simpa using hva
        simp [dedupFrom, hm, hvab,
          ih (v.address :: seen)
            (by intro hc
                rcases List.mem_cons.mp hc with h | h
                · exact hva h.symm
                · exact ha h)]

/-- C8: in a scan whose advertisement stream contains two (or more)
advertisements from the same address with the matching device name, where the
first of them is the first matching advertisement from that address, the
result carries exactly one entry for that address, with the first-seen
advertisement's signal strength; the later advertisement is dropped even if
its signal strength differs. -/
theorem C8_first_seen_wins (l1 l2 l3 : List Advertisement) (v1 v2 : Advertisement)
    (a : String)
    (h1a : v1.address = a) (h1n : v1.name = "Ooni_DT_Hub")
    (h2a : v2.address = a) (h2n : v2.name = "Ooni_DT_Hub")
    (hfirst : ∀ u ∈ l1, ¬(u.address = a ∧ u.name = "Ooni_DT_Hub")) :
    (scanRun [] [] (l1 ++ v1 :: l2 ++ v2 :: l3)).filter (fun d => d.address == a) =
      [{ address := a, name := "Ooni_DT_Hub", rssi := v1.rssi }] := by
  rw [scanRun_eq (l1 ++ v1 :: l2 ++ v2 :: l3) [] []]
  simp only [List.nil_append]
  rw [map_toDev_filter_addr, dedup_filter_first a _ [] (by simp)]
  have hfind : ((l1 ++ v1 :: l2 ++ v2 :: l3).filter isHub).find?
      (fun v => v.address == a) = some v1 := by
    rw [List.filter_append, List.find?_append, List.filter_append, List.find?_append]
    have hnone : (l1.filter isHub).find? (fun v => v.address == a) = none := by
      rw [List.find?_eq_none]
      intro u hu
      have hu1 : u ∈ l1 := (List.mem_filter.mp hu).1
      have hu2 : isHub u = true := (List.mem_filter.mp hu).2
      have hun : u.name = "Ooni_DT_Hub" := by simpa [isHub] using hu2
      simp only [beq_iff_eq]
      intro he
      exact hfirst u hu1 ⟨he, hun⟩
    rw [hnone, Option.none_or]
    have hv1hub : isHub v1 = true := by simp [isHub, h1n]
    have hv1a : (v1.address == a) = true := by simpa using h1a
    rw [List.filter_cons, if_pos hv1hub]
    simp [hv1a]
  rw [hfind]
  simp [toDev, h1a, h1n]

/-- Witness for C8 at a concrete input: two advertisements from "AA" with
rssi -40 then -70 yield one entry carrying -40. -/
theorem C8_witness :
    (scanRun [] [] [{ address := "AA", name := "Ooni_DT_Hub", rssi := -40 },
        { address := "AA", name := "Ooni_DT_Hub", rssi := -70 }]).filter
        (fun d => d.address == ("AA")) =
      [{ address := "AA", name := "Ooni_DT_Hub", rssi := -40 }] := by
  exact C8_first_seen_wins [] [] []
    { address := "AA", name := "Ooni_DT_Hub", rssi := -40 }
    { address := "AA", name := "Ooni_DT_Hub", rssi := -70 }
    ("AA") rfl rfl rfl rfl (by simp)

/-- A matching advertisement delivered 6 seconds into the scan: inside a
requested 10-second window, but outside the hard-coded 5-second one. -/
def lateAdv : TimedAdv :=
  { time := 6, adv := { address := "AA", name := "Ooni_DT_Hub", rssi := -40 } }

/-- Counterexample to C9 as stated: the scan handler accepts no duration and
always sleeps 5 seconds; for a requested duration of 10 seconds the
specification's contract (`scanSpecWindow`) keeps an advertisement delivered
at second 6, while the code's scan returns an empty list. -/
theorem C9_counterexample :
    (scan_devices true initialState [lateAdv]).2.devices = [] ∧
    scanSpecWindow 10 [lateAdv] =
      [{ address := "AA", name := "Ooni_DT_Hub", rssi := -40 }] := by
  constructor
  · rfl
  · rfl

/-- C9 (amended): the scan endpoint accepts no duration parameter: every
scan runs the fixed 5-second window hard-coded in the handler; when no scan
is in progress the session is closed, the busy flag is reset, and the call
returns success with exactly the name-filtered, first-seen-deduplicated
advertisements delivered inside that window, in discovery order (never
sorted by signal strength); an empty accumulation is a valid non-error
outcome. -/
theorem C9_amended_fixed_window (st : ServerState) (advs : List TimedAdv)
    (h : st.scanning = false) :
    (scan_devices true st advs).2.success = true ∧
    (scan_devices true st advs).2.error = none ∧
    (scan_devices true st advs).2.devices = scanSpecWindow SCAN_SECONDS advs ∧
    (scan_devices true st advs).1.scanning = false ∧
    (scan_devices true st []).2.devices = [] := by
  have hrun := scanRun_eq
    ((advs.filter (fun t => decide (t.time < SCAN_SECONDS))).map (fun t => t.adv)) [] []
  refine ⟨?_, ?_, ?_, ?_, ?_⟩ <;>
    simp [scan_devices, h, scanSpecWindow, hrun, scanRun]

/-- Witness for C9 (amended) at a concrete input: a scan whose only
advertisement arrives at second 6 returns success with no devices. -/
theorem C9_amended_witness :
    (scan_devices true initialState [lateAdv]).2.success = true ∧
    (scan_devices true initialState [lateAdv]).2.devices =
      scanSpecWindow SCAN_SECONDS [lateAdv] := by
  exact ⟨(C9_amended_fixed_window initialState [lateAdv] rfl).1,
    (C9_amended_fixed_window initialState [lateAdv] rfl).2.2.1⟩
